import Mathlib

/-!
Shallow embedding of `ConversationStore.js`
(questions-with-classifier-ega, `src/main/webapp/dev/js/ConversationStore.js`).

The store is a single-threaded flux store: each action handler reads and
mutates one `conversation` object, a question cache and a question history,
performs at most one `fetch`, and emits broadcasts via `self.trigger`.

Modelling decisions:
* JavaScript strings model all opaque payloads (message texts, ids, the
  elements of `responses` and `topQuestions`); the store never inspects
  them.  String truthiness is `s ≠ ""` (both `undefined` and `""` are
  falsy, and both take the same branches in this code).
* `topQuestions` is a JS value that is either an array (truthy, even when
  empty) or `null`/`undefined` (falsy): `Option (List String)`, with
  `none` the falsy case.
* The question cache is an association list with newest binding first;
  `List.lookup` gives JS property-read semantics (assignment overwrites).
* Each handler is a pure function of the current store state, its action
  input, and the outcome of its (at most one) `fetch`.  It returns the new
  state and a trace.  A trace entry pairs each emitted event with the store
  state current at the moment of emission, so ordering claims ("the cache
  is updated before the broadcast", "the broadcast fires before the network
  call resolves") are statements about the trace.  The synchronous part of
  the handler runs first; `Event.networkRequest` marks the `fetch` call and
  `Event.networkResolved` marks the settling of its promise, after which
  the `.then`/`.catch` continuation events follow.
-/

/-- One cache entry: `questionCache[messageId] = {message, responses}`. -/
structure CacheEntry where
  message : String
  responses : List String
deriving DecidableEq, Repr

/-- The `self.conversation` object. -/
structure Conversation where
  conversationId : String
  message : String
  messageId : String
  responses : List String
  topQuestions : Option (List String)
deriving DecidableEq, Repr

/-- The mutable state of the store: `self.conversation`,
`self.questionHistory`, `self.questionCache`.  The extra field
`selfTopQuestions` models the property read `self.topQuestions` in the
GET_TOP_QUESTIONS handler: no code ever assigns that property on the store
object, so it is `undefined` (`none`) in every reachable state; it is kept
in the state so that the handler can be translated line by line. -/
structure StoreState where
  conversation : Conversation
  questionHistory : List String
  questionCache : List (String × CacheEntry)
  selfTopQuestions : Option (List String)
deriving DecidableEq, Repr

/-- `constants.js` values used by the store (external collaborator). -/
structure Constants where
  conversationUrl : String
  feedbackUrl : String
  refinementQueryType : String
deriving DecidableEq, Repr

/-- The store state built by the `ConversationStore` constructor. -/
def initialState : StoreState :=
  { conversation :=
      { conversationId := ""
        message := ""
        messageId := ""
        responses := []
        topQuestions := some [] }
    questionHistory := []
    questionCache := []
    selfTopQuestions := none }

inductive Method where
  | get
  | post
deriving DecidableEq, Repr

/-- The `referrer` object of an ASK_QUESTION request body: `source` always,
`messageId` only when the referrer is the refinement query type. -/
structure ReferrerObj where
  source : String
  messageId : Option String
deriving DecidableEq, Repr

/-- The JSON body POSTed by the ASK_QUESTION network path; `none` fields
are absent from the object. -/
structure AskRequestBody where
  message : Option String
  referrer : Option ReferrerObj
deriving DecidableEq, Repr

/-- Bodies of the requests the store issues. -/
inductive RequestBody where
  | empty
  | ask (body : AskRequestBody)
  | feedback (conversationId : String) (messageId : String) (feedbackAction : String)
deriving DecidableEq, Repr

/-- One `fetch` call: URL, method, body.  All requests carry
`Content-Type: application/json`. -/
structure HttpRequest where
  url : String
  method : Method
  body : RequestBody
deriving DecidableEq, Repr

/-- A server response: HTTP status, status text, and the JSON value the body
parses to (`response.json()` is assumed to succeed; the claims are about
statuses). -/
structure HttpResponse (α : Type) where
  status : Nat
  statusText : String
  data : α
deriving DecidableEq, Repr

/-- The outcome of a `fetch`: transport failure (promise rejection) or a
server response. -/
inductive FetchOutcome (α : Type) where
  | networkFailure (error : String)
  | response (response : HttpResponse α)
deriving DecidableEq, Repr

/-- Everything observable a handler does besides mutating the state:
broadcasts (`self.trigger`), the `fetch` call itself, and the settling of
its promise. -/
inductive Event where
  | conversationStartedBroadcast (conversation : Conversation)
  | topQuestionsBroadcast (topQuestions : Option (List String))
  | askingQuestionBroadcast
  | answerReceivedBroadcast (conversation : Conversation)
  | alternativeQuestionBroadcast (conversation : Conversation)
  | serverErrorBroadcast (error : String)
  | noneOfTheAboveClickedBroadcast
  | negativeFeedbackReceivedBroadcast
  | positiveFeedbackReceivedBroadcast
  | updateRefinementQuestionsBroadcast (message : String) (messageId : String)
      (responses : List String)
  | networkRequest (request : HttpRequest)
  | networkResolved
deriving DecidableEq, Repr

/-- A handler trace: each event paired with the store state at emission. -/
abbrev Trace := List (StoreState × Event)

/-- Just the events of a trace, in order. -/
def eventsOf (tr : Trace) : List Event := tr.map Prod.snd

/-- `true` exactly on SERVER_ERROR_BROADCAST events. -/
def isServerErrorEvent : Event → Bool
  | Event.serverErrorBroadcast _ => true
  | _ => false

/-- `_analyzeStatus`: returns the response if its status is 200, otherwise
throws an `Error` carrying the status text. -/
def analyzeStatus {α : Type} (response : HttpResponse α) :
    Except String (HttpResponse α) :=
  if response.status = 200 then Except.ok response
  else Except.error response.statusText

/-- The POST issued by the CONVERSATION_START handler. -/
def startRequest (cst : Constants) : HttpRequest :=
  { url := cst.conversationUrl, method := Method.post, body := RequestBody.empty }

/-- JSON data returned by the conversation-start endpoint. -/
structure StartData where
  conversationId : String
  topQuestions : Option (List String)
deriving DecidableEq, Repr

/-- CONVERSATION_START handler: POST to `conversationUrl`; on a 200
response store `conversationId` and `topQuestions` and broadcast
CONVERSATION_STARTED then TOP_QUESTIONS; any thrown error or rejection is
caught and reported via SERVER_ERROR_BROADCAST. -/
def conversationStart (cst : Constants) (st : StoreState)
    (outcome : FetchOutcome StartData) : StoreState × Trace :=
  let req := startRequest cst
  match outcome with
  | FetchOutcome.networkFailure error =>
      (st, [(st, Event.networkRequest req), (st, Event.networkResolved),
            (st, Event.serverErrorBroadcast error)])
  | FetchOutcome.response response =>
      if response.status = 200 then
        let conv :=
          { st.conversation with
              conversationId := response.data.conversationId
              topQuestions := response.data.topQuestions }
        let st' := { st with conversation := conv }
        (st', [(st, Event.networkRequest req), (st, Event.networkResolved),
               (st', Event.conversationStartedBroadcast conv),
               (st', Event.topQuestionsBroadcast conv.topQuestions)])
      else
        (st, [(st, Event.networkRequest req), (st, Event.networkResolved),
              (st, Event.serverErrorBroadcast response.statusText)])

/-- JSON data returned by the topQuestions endpoint. -/
structure TopQuestionsData where
  topQuestions : Option (List String)
deriving DecidableEq, Repr

/-- The GET issued by the GET_TOP_QUESTIONS handler. -/
def topQuestionsRequest (cst : Constants) (st : StoreState) : HttpRequest :=
  { url := cst.conversationUrl ++ st.conversation.conversationId ++ "/topQuestions"
    method := Method.get
    body := RequestBody.empty }

/-- GET_TOP_QUESTIONS handler.  First branch: `conversationId` truthy and
`conversation.topQuestions` falsy — GET from the server, store, broadcast.
Else branch: the source tests `self.conversation && self.topQuestions`;
`self.conversation` is an object (always truthy) and `self.topQuestions`
is the never-assigned store property (`selfTopQuestions`), so the test is
`selfTopQuestions` truthy. -/
def getTopQuestions (cst : Constants) (st : StoreState)
    (outcome : FetchOutcome TopQuestionsData) : StoreState × Trace :=
  if st.conversation.conversationId ≠ "" ∧ st.conversation.topQuestions = none then
    let req := topQuestionsRequest cst st
    match outcome with
    | FetchOutcome.networkFailure error =>
        (st, [(st, Event.networkRequest req), (st, Event.networkResolved),
              (st, Event.serverErrorBroadcast error)])
    | FetchOutcome.response response =>
        match analyzeStatus response with
        | Except.error e =>
            (st, [(st, Event.networkRequest req), (st, Event.networkResolved),
                  (st, Event.serverErrorBroadcast e)])
        | Except.ok response =>
            let conv := { st.conversation with topQuestions := response.data.topQuestions }
            let st' := { st with conversation := conv }
            (st', [(st, Event.networkRequest req), (st, Event.networkResolved),
                   (st', Event.topQuestionsBroadcast conv.topQuestions)])
  else if st.selfTopQuestions.isSome then
    (st, [(st, Event.topQuestionsBroadcast st.conversation.topQuestions)])
  else
    (st, [])

/-- The ASK_QUESTION action input `{messageId?, message?, referrer?}`;
absent/falsy fields are `""`. -/
structure AskInput where
  messageId : String
  message : String
  referrer : String
deriving DecidableEq, Repr

/-- JSON data returned by the ask endpoint. -/
structure AnswerData where
  messageId : String
  message : String
  responses : List String
deriving DecidableEq, Repr

/-- The `requestBody` built by the ASK_QUESTION network path: `message`
only if truthy; `referrer` (with `source`, plus the conversation's current
`messageId` when the referrer is the refinement query type) only if
truthy. -/
def askRequestBody (cst : Constants) (st : StoreState) (question : AskInput) :
    AskRequestBody :=
  { message := if question.message = "" then none else some question.message
    referrer :=
      if question.referrer = "" then none
      else some
        { source := question.referrer
          messageId :=
            if question.referrer = cst.refinementQueryType then
              some st.conversation.messageId
            else none } }

/-- The POST issued by the ASK_QUESTION network path. -/
def askRequest (cst : Constants) (st : StoreState) (question : AskInput) :
    HttpRequest :=
  { url := cst.conversationUrl ++ st.conversation.conversationId
    method := Method.post
    body := RequestBody.ask (askRequestBody cst st question) }

/-- ASK_QUESTION network path (the `else` branch): POST the question, then
`_analyzeStatus`/`_parseJson`; on success push the returned `messageId`
onto the history, write the cache entry, update the conversation, and
broadcast ANSWER_RECEIVED then ALTERNATIVE_QUESTION; errors are caught and
reported via SERVER_ERROR_BROADCAST. -/
def askQuestionNetwork (cst : Constants) (st : StoreState) (question : AskInput)
    (outcome : FetchOutcome AnswerData) : StoreState × Trace :=
  let req := askRequest cst st question
  match outcome with
  | FetchOutcome.networkFailure error =>
      (st, [(st, Event.networkRequest req), (st, Event.networkResolved),
            (st, Event.serverErrorBroadcast error)])
  | FetchOutcome.response response =>
      match analyzeStatus response with
      | Except.error e =>
          (st, [(st, Event.networkRequest req), (st, Event.networkResolved),
                (st, Event.serverErrorBroadcast e)])
      | Except.ok response =>
          let data := response.data
          let oldMessageId := data.messageId
          let st' : StoreState :=
            { st with
                questionHistory := st.questionHistory ++ [oldMessageId]
                questionCache :=
                  (oldMessageId, { message := data.message, responses := data.responses })
                    :: st.questionCache
                conversation :=
                  { st.conversation with
                      responses := data.responses
                      messageId := data.messageId
                      message := data.message } }
          (st', [(st, Event.networkRequest req), (st, Event.networkResolved),
                 (st', Event.answerReceivedBroadcast st'.conversation),
                 (st', Event.alternativeQuestionBroadcast st'.conversation)])

/-- ASK_QUESTION handler: broadcast ASKING_QUESTION first; if `messageId`
is truthy and cached, replay `{message, responses}` from the cache and
broadcast synchronously; otherwise take the network path.  (The source
tests `messageId && cachedMessage`; the match-then-test order here is
equivalent since neither read has side effects.) -/
def askQuestion (cst : Constants) (st : StoreState) (question : AskInput)
    (outcome : FetchOutcome AnswerData) : StoreState × Trace :=
  let (st', rest) :=
    match st.questionCache.lookup question.messageId with
    | some cachedMessage =>
        if question.messageId = "" then askQuestionNetwork cst st question outcome
        else
          let conv :=
            { st.conversation with
                responses := cachedMessage.responses
                messageId := question.messageId
                message := cachedMessage.message }
          let stHit := { st with conversation := conv }
          (stHit, [(stHit, Event.answerReceivedBroadcast conv),
                   (stHit, Event.alternativeQuestionBroadcast conv)])
    | none => askQuestionNetwork cst st question outcome
  (st', (st, Event.askingQuestionBroadcast) :: rest)

/-- The POST issued by a feedback-type handler. -/
def feedbackRequest (cst : Constants) (conversationId messageId feedbackAction : String) :
    HttpRequest :=
  { url := cst.feedbackUrl
    method := Method.post
    body := RequestBody.feedback conversationId messageId feedbackAction }

/-- The shared fire-and-forget feedback continuation: the inline status
check accepts any status in `[200, 300)` and throws the status text
otherwise; the `catch` reports via SERVER_ERROR_BROADCAST.  The feedback
handlers do not parse the body and do not mutate state. -/
def feedbackResolution (st : StoreState) (outcome : FetchOutcome Unit) : Trace :=
  match outcome with
  | FetchOutcome.networkFailure error => [(st, Event.serverErrorBroadcast error)]
  | FetchOutcome.response response =>
      if response.status < 200 ∨ 300 ≤ response.status then
        [(st, Event.serverErrorBroadcast response.statusText)]
      else []

/-- NONE_OF_THE_ABOVE_CLICKED handler: broadcast immediately (before the
fetch), then fire-and-forget feedback POST with action
`NO_HELPFUL_REFINEMENTS`. -/
def noneOfTheAboveClicked (cst : Constants) (st : StoreState)
    (outcome : FetchOutcome Unit) : StoreState × Trace :=
  let req := feedbackRequest cst st.conversation.conversationId
      st.conversation.messageId "NO_HELPFUL_REFINEMENTS"
  (st, (st, Event.noneOfTheAboveClickedBroadcast)
        :: (st, Event.networkRequest req) :: (st, Event.networkResolved)
        :: feedbackResolution st outcome)

/-- NEGATIVE_FEEDBACK_GIVEN handler: same pattern, action `UNHELPFUL`. -/
def negativeFeedbackGiven (cst : Constants) (st : StoreState)
    (outcome : FetchOutcome Unit) : StoreState × Trace :=
  let req := feedbackRequest cst st.conversation.conversationId
      st.conversation.messageId "UNHELPFUL"
  (st, (st, Event.negativeFeedbackReceivedBroadcast)
        :: (st, Event.networkRequest req) :: (st, Event.networkResolved)
        :: feedbackResolution st outcome)

/-- POSITIVE_FEEDBACK_GIVEN handler: same pattern, action `HELPFUL`. -/
def positiveFeedbackGiven (cst : Constants) (st : StoreState)
    (outcome : FetchOutcome Unit) : StoreState × Trace :=
  let req := feedbackRequest cst st.conversation.conversationId
      st.conversation.messageId "HELPFUL"
  (st, (st, Event.positiveFeedbackReceivedBroadcast)
        :: (st, Event.networkRequest req) :: (st, Event.networkResolved)
        :: feedbackResolution st outcome)

/-- FORUM_BUTTON_PRESSED handler: feedback POST with action
`FORUM_REDIRECT`, using the given `messageId` if truthy, else the
conversation's current one; no broadcast on success. -/
def forumButtonPressed (cst : Constants) (st : StoreState) (messageId : String)
    (outcome : FetchOutcome Unit) : StoreState × Trace :=
  let postMessageId := if messageId ≠ "" then messageId else st.conversation.messageId
  let req := feedbackRequest cst st.conversation.conversationId
      postMessageId "FORUM_REDIRECT"
  (st, (st, Event.networkRequest req) :: (st, Event.networkResolved)
        :: feedbackResolution st outcome)

/-- The `{messageId}` input of SET_CURRENT_QUESTION and
UPDATE_REFINEMENT_QUESTIONS. -/
structure QuestionRef where
  messageId : String
deriving DecidableEq, Repr

/-- SET_CURRENT_QUESTION handler: if `messageId` is truthy and cached,
overwrite the conversation's `responses`/`messageId`/`message` from the
cache; no broadcast either way. -/
def setCurrentQuestion (st : StoreState) (question : QuestionRef) :
    StoreState × Trace :=
  match st.questionCache.lookup question.messageId with
  | some cachedMessage =>
      if question.messageId = "" then (st, [])
      else
        ({ st with
            conversation :=
              { st.conversation with
                  responses := cachedMessage.responses
                  messageId := question.messageId
                  message := cachedMessage.message } }, [])
  | none => (st, [])

/-- UPDATE_REFINEMENT_QUESTIONS handler: if `messageId` is truthy and
cached, build a transient conversation-shaped object from the cache and
broadcast it; the store state is untouched. -/
def updateRefinementQuestions (st : StoreState) (question : QuestionRef) :
    StoreState × Trace :=
  match st.questionCache.lookup question.messageId with
  | some cachedMessage =>
      if question.messageId = "" then (st, [])
      else
        (st, [(st, Event.updateRefinementQuestionsBroadcast
                cachedMessage.message question.messageId cachedMessage.responses)])
  | none => (st, [])

/-- GET_ALTERNATIVE_QUESTIONS handler: broadcast the current conversation
unconditionally. -/
def getAlternativeQuestions (st : StoreState) : StoreState × Trace :=
  (st, [(st, Event.alternativeQuestionBroadcast st.conversation)])

/-! ### Concrete fixtures used by witness theorems -/

def cst0 : Constants :=
  { conversationUrl := "/api/conversation/"
    feedbackUrl := "/api/feedback/"
    refinementQueryType := "REFINEMENT" }

/-- A reachable state in which `conversationId` and `topQuestions` are both
set (as after a successful CONVERSATION_START). -/
def topQuestionsSetState : StoreState :=
  { conversation :=
      { conversationId := "c1"
        message := ""
        messageId := ""
        responses := []
        topQuestions := some ["tq1"] }
    questionHistory := []
    questionCache := []
    selfTopQuestions := none }

def askSuccessOutcome : FetchOutcome AnswerData :=
  FetchOutcome.response
    { status := 200, statusText := "OK"
      data := { messageId := "m1", message := "hi", responses := ["r1", "r2"] } }

def askRun : StoreState × Trace :=
  askQuestion cst0 initialState
    { messageId := "", message := "hello", referrer := "" } askSuccessOutcome

def cachedEntry : CacheEntry := { message := "cached answer", responses := ["ra", "rb"] }

/-- A state with `"m1"` cached, as after one successful network ask. -/
def cachedState : StoreState :=
  { conversation :=
      { conversationId := "c1"
        message := "old"
        messageId := "m0"
        responses := ["r0"]
        topQuestions := some [] }
    questionHistory := ["m1"]
    questionCache := [("m1", cachedEntry)]
    selfTopQuestions := none }

def askHitInput : AskInput := { messageId := "m1", message := "", referrer := "" }

def askMissInput : AskInput := { messageId := "", message := "why", referrer := "" }

def askHitRun : StoreState × Trace :=
  askQuestion cst0 cachedState askHitInput askSuccessOutcome

def askRefInput : AskInput :=
  { messageId := "", message := "q", referrer := "REFINEMENT" }

def askOtherRefInput : AskInput :=
  { messageId := "", message := "q", referrer := "TOPQ" }

def setMissRun : StoreState × Trace :=
  setCurrentQuestion cachedState { messageId := "zz" }

def setHitRun : StoreState × Trace :=
  setCurrentQuestion cachedState { messageId := "m1" }

/-- A 500 response used by witnesses. -/
def resp500 : HttpResponse StartData :=
  { status := 500, statusText := "Internal Server Error"
    data := { conversationId := "cX", topQuestions := none } }

/-- A state with `conversationId` set and `topQuestions` null, as after a
CONVERSATION_START whose payload had no `topQuestions`. -/
def topQuestionsUnsetState : StoreState :=
  { conversation :=
      { conversationId := "c1"
        message := ""
        messageId := ""
        responses := []
        topQuestions := none }
    questionHistory := []
    questionCache := []
    selfTopQuestions := none }

def respFb403 : HttpResponse Unit :=
  { status := 403, statusText := "Forbidden", data := () }

def respAnswer500 : HttpResponse AnswerData :=
  { status := 500, statusText := "ISE"
    data := { messageId := "", message := "", responses := [] } }

def respTq502 : HttpResponse TopQuestionsData :=
  { status := 502, statusText := "Bad Gateway", data := { topQuestions := none } }

def conversationStartRun : StoreState × Trace :=
  conversationStart cst0 initialState (FetchOutcome.response resp500)

/-- `topQuestionsSetState` is what CONVERSATION_START actually produces
from the initial state on a 200 response carrying `c1` and `["tq1"]` — so
the state fed to the C1 counterexample is reachable. -/
theorem topQuestionsSetState_reachable :
    (conversationStart cst0 initialState
        (FetchOutcome.response
          { status := 200, statusText := "OK"
            data := { conversationId := "c1", topQuestions := some ["tq1"] } })).1
      = topQuestionsSetState := by
  decide

/-! ### Claims -/

/-- Claim C1 (refuted by the code — evaluated at the failing input): in a
state where `conversationId = "c1"` and `topQuestions` is already set to
`["tq1"]`, GET_TOP_QUESTIONS performs no network call but, contrary to the
claim, also emits no TOP_QUESTIONS_BROADCAST at all: the else branch tests
the never-assigned store property `self.topQuestions` instead of
`self.conversation.topQuestions`, so its broadcast is unreachable.  The
handler returns the unchanged state and the empty trace for every
constants record and every fetch outcome. -/
theorem getTopQuestions_already_set_emits_nothing :
    ∀ (cst : Constants) (outcome : FetchOutcome TopQuestionsData),
      getTopQuestions cst topQuestionsSetState outcome
        = (topQuestionsSetState, []) := by
  intro cst outcome
  rfl

/-- Claim C4: a CONVERSATION_START response with status ≠ 200 leaves the
whole state (in particular `conversationId`) unchanged and the trace
contains exactly one SERVER_ERROR_BROADCAST, carrying the status text; a
200 response stores the returned `conversationId` and `topQuestions` and
the trace is the fetch followed by CONVERSATION_STARTED_BROADCAST and then
TOP_QUESTIONS_BROADCAST. -/
theorem conversationStart_status_behaviour (cst : Constants) (st : StoreState)
    (response : HttpResponse StartData) (st' : StoreState) (tr : Trace)
    (heq : conversationStart cst st (FetchOutcome.response response) = (st', tr)) :
    (response.status ≠ 200 →
        st' = st ∧
        (eventsOf tr).filter isServerErrorEvent
          = [Event.serverErrorBroadcast response.statusText]) ∧
    (response.status = 200 →
        st'.conversation.conversationId = response.data.conversationId ∧
        st'.conversation.topQuestions = response.data.topQuestions ∧
        eventsOf tr
          = [Event.networkRequest (startRequest cst), Event.networkResolved,
             Event.conversationStartedBroadcast st'.conversation,
             Event.topQuestionsBroadcast response.data.topQuestions]) := by
  constructor
  · intro h
    simp [conversationStart, h] at heq
    obtain ⟨h1, h2⟩ := heq
    subst h1
    subst h2
    simp [eventsOf, isServerErrorEvent]
  · intro h
    simp [conversationStart, h] at heq
    obtain ⟨h1, h2⟩ := heq
    subst h1
    subst h2
    simp [eventsOf]

/-- On a falsy or uncached `messageId`, ASK_QUESTION is the ASKING
broadcast followed by the network path. -/
theorem askQuestion_miss_eq (cst : Constants) (st : StoreState)
    (question : AskInput) (outcome : FetchOutcome AnswerData)
    (hmiss : question.messageId = ""
        ∨ st.questionCache.lookup question.messageId = none) :
    askQuestion cst st question outcome
      = ((askQuestionNetwork cst st question outcome).1,
         (st, Event.askingQuestionBroadcast)
           :: (askQuestionNetwork cst st question outcome).2) := by
  rcases hmiss with h | h
  · rcases hcache : st.questionCache.lookup question.messageId with _ | cm
    · simp [askQuestion, hcache]
    · rw [h] at hcache
      simp [askQuestion, hcache, h]
  · simp [askQuestion, h]

/-- Trace shape of the ASK_QUESTION network path: whatever the outcome,
the fetch happens first and its settlement precedes every continuation
event. -/
theorem askQuestionNetwork_events_shape (cst : Constants) (st : StoreState)
    (question : AskInput) (outcome : FetchOutcome AnswerData) :
    ∃ rest, eventsOf (askQuestionNetwork cst st question outcome).2
      = Event.networkRequest (askRequest cst st question)
        :: Event.networkResolved :: rest := by
  cases outcome with
  | networkFailure e => exact ⟨_, rfl⟩
  | response r =>
      unfold askQuestionNetwork analyzeStatus
      by_cases h : r.status = 200 <;> simp [h, eventsOf]

/-- Claim C2: on the ASK_QUESTION network path, a 200 response with fields
`messageId`, `message`, `responses` leaves the cache mapping that
`messageId` to the pair, appends it at the end of the history, and every
ANSWER_RECEIVED_BROADCAST in the trace is emitted from a state in which
both updates have already happened; the broadcast does occur, and carries
the response's message and responses. -/
theorem askQuestion_network_success_updates_before_broadcast
    (cst : Constants) (st : StoreState) (question : AskInput)
    (statusText : String) (data : AnswerData) (st' : StoreState) (tr : Trace)
    (hmiss : question.messageId = ""
        ∨ st.questionCache.lookup question.messageId = none)
    (heq : askQuestion cst st question
        (FetchOutcome.response { status := 200, statusText := statusText, data := data })
        = (st', tr)) :
    st'.questionCache.lookup data.messageId
        = some { message := data.message, responses := data.responses } ∧
    st'.questionHistory = st.questionHistory ++ [data.messageId] ∧
    (∀ p ∈ tr, (∃ c, p.2 = Event.answerReceivedBroadcast c) →
        p.1.questionCache.lookup data.messageId
            = some { message := data.message, responses := data.responses } ∧
        p.1.questionHistory = st.questionHistory ++ [data.messageId]) ∧
    (∃ c, (st', Event.answerReceivedBroadcast c) ∈ tr ∧
        c.message = data.message ∧ c.responses = data.responses) := by
  rw [askQuestion_miss_eq cst st question _ hmiss] at heq
  rw [Prod.mk.injEq] at heq
  obtain ⟨h1, h2⟩ := heq
  subst h1
  subst h2
  simp only [askQuestionNetwork, analyzeStatus, if_pos rfl]
  refine ⟨by simp [List.lookup], rfl, ?_, ?_⟩
  · intro p hp hc
    obtain ⟨c, hcc⟩ := hc
    simp at hp
    rcases hp with rfl | rfl | rfl | rfl | rfl
    · simp at hcc
    · simp at hcc
    · simp at hcc
    · exact ⟨by simp [List.lookup], rfl⟩
    · exact ⟨by simp [List.lookup], rfl⟩
  · refine ⟨{ st.conversation with
        responses := data.responses
        messageId := data.messageId
        message := data.message }, by simp, rfl, rfl⟩

/-- Witness for C2 at a concrete cache-miss call. -/
theorem askQuestion_network_success_witness :
    askRun.1.questionCache.lookup "m1"
        = some { message := "hi", responses := ["r1", "r2"] } ∧
    askRun.1.questionHistory = initialState.questionHistory ++ ["m1"] :=
  have h := askQuestion_network_success_updates_before_broadcast cst0 initialState
      { messageId := "", message := "hello", referrer := "" } "OK"
      { messageId := "m1", message := "hi", responses := ["r1", "r2"] }
      askRun.1 askRun.2 (Or.inl rfl) rfl
  ⟨h.1, h.2.1⟩

/-- Claim C3: if the input's `messageId` is truthy and cached, ASK_QUESTION
broadcasts ASKING_QUESTION then ANSWER_RECEIVED (with the cached message
and responses) then ALTERNATIVE_QUESTION and nothing else — in particular
no network call; if the `messageId` is falsy or not cached, the network
call is issued immediately after the ASKING_QUESTION broadcast, so before
any ANSWER_RECEIVED_BROADCAST (which can only sit in the continuation
after `networkResolved`). -/
theorem askQuestion_cache_hit_miss (cst : Constants) (st : StoreState)
    (question : AskInput) (outcome : FetchOutcome AnswerData) :
    (∀ e, question.messageId ≠ "" →
        st.questionCache.lookup question.messageId = some e →
        ∃ conv, conv.message = e.message ∧ conv.responses = e.responses ∧
          eventsOf (askQuestion cst st question outcome).2
            = [Event.askingQuestionBroadcast,
               Event.answerReceivedBroadcast conv,
               Event.alternativeQuestionBroadcast conv] ∧
          ∀ req, Event.networkRequest req ∉ eventsOf (askQuestion cst st question outcome).2) ∧
    ((question.messageId = ""
        ∨ st.questionCache.lookup question.messageId = none) →
        ∃ rest, eventsOf (askQuestion cst st question outcome).2
            = Event.askingQuestionBroadcast
              :: Event.networkRequest (askRequest cst st question)
              :: Event.networkResolved :: rest) := by
  constructor
  · intro e hid hc
    refine ⟨{ st.conversation with
        responses := e.responses
        messageId := question.messageId
        message := e.message }, rfl, rfl, ?_, ?_⟩
    · simp [askQuestion, hc, hid, eventsOf]
    · intro req
      simp [askQuestion, hc, hid, eventsOf]
  · intro hmiss
    obtain ⟨rest, hrest⟩ := askQuestionNetwork_events_shape cst st question outcome
    refine ⟨rest, ?_⟩
    rw [askQuestion_miss_eq cst st question outcome hmiss]
    simp only [eventsOf, List.map_cons] at hrest ⊢
    rw [hrest]

/-- Witness for C3: a concrete cache hit and a concrete cache miss. -/
theorem askQuestion_cache_hit_miss_witness :
    (∃ conv, conv.message = "cached answer" ∧ conv.responses = ["ra", "rb"] ∧
        eventsOf (askQuestion cst0 cachedState askHitInput askSuccessOutcome).2
          = [Event.askingQuestionBroadcast,
             Event.answerReceivedBroadcast conv,
             Event.alternativeQuestionBroadcast conv] ∧
        ∀ req, Event.networkRequest req
          ∉ eventsOf (askQuestion cst0 cachedState askHitInput askSuccessOutcome).2) ∧
    (∃ rest, eventsOf (askQuestion cst0 initialState askMissInput askSuccessOutcome).2
        = Event.askingQuestionBroadcast
          :: Event.networkRequest (askRequest cst0 initialState askMissInput)
          :: Event.networkResolved :: rest) :=
  ⟨(askQuestion_cache_hit_miss cst0 cachedState askHitInput askSuccessOutcome).1
      cachedEntry (by decide) rfl,
   (askQuestion_cache_hit_miss cst0 initialState askMissInput askSuccessOutcome).2
      (Or.inl rfl)⟩

/-- Claim C9: an ASK_QUESTION served from the cache changes neither the
cache, the history, `conversationId`, `topQuestions`, nor the phantom
store property; only `message`, `messageId` and `responses` are
overwritten, with the cached values. -/
theorem askQuestion_cache_hit_frame (cst : Constants) (st : StoreState)
    (question : AskInput) (outcome : FetchOutcome AnswerData) (e : CacheEntry)
    (st' : StoreState) (tr : Trace)
    (hid : question.messageId ≠ "")
    (hc : st.questionCache.lookup question.messageId = some e)
    (heq : askQuestion cst st question outcome = (st', tr)) :
    st'.questionCache = st.questionCache ∧
    st'.questionHistory = st.questionHistory ∧
    st'.conversation.conversationId = st.conversation.conversationId ∧
    st'.conversation.topQuestions = st.conversation.topQuestions ∧
    st'.selfTopQuestions = st.selfTopQuestions ∧
    st'.conversation.message = e.message ∧
    st'.conversation.messageId = question.messageId ∧
    st'.conversation.responses = e.responses := by
  simp [askQuestion, hc, hid] at heq
  obtain ⟨h1, h2⟩ := heq
  subst h1
  simp

/-- Witness for C9 at the concrete cache hit. -/
theorem askQuestion_cache_hit_frame_witness :
    askHitRun.1.questionCache = cachedState.questionCache ∧
    askHitRun.1.questionHistory = cachedState.questionHistory ∧
    askHitRun.1.conversation.conversationId = cachedState.conversation.conversationId ∧
    askHitRun.1.conversation.topQuestions = cachedState.conversation.topQuestions ∧
    askHitRun.1.selfTopQuestions = cachedState.selfTopQuestions ∧
    askHitRun.1.conversation.message = cachedEntry.message ∧
    askHitRun.1.conversation.messageId = askHitInput.messageId ∧
    askHitRun.1.conversation.responses = cachedEntry.responses :=
  askQuestion_cache_hit_frame cst0 cachedState askHitInput askSuccessOutcome
    cachedEntry askHitRun.1 askHitRun.2 (by decide) rfl rfl

/-- On the miss path the ASK_QUESTION trace contains the POST, whatever
the outcome. -/
theorem askQuestion_miss_request_mem (cst : Constants) (st : StoreState)
    (question : AskInput) (outcome : FetchOutcome AnswerData)
    (hmiss : question.messageId = ""
        ∨ st.questionCache.lookup question.messageId = none) :
    Event.networkRequest (askRequest cst st question)
      ∈ eventsOf (askQuestion cst st question outcome).2 := by
  obtain ⟨rest, hrest⟩ := askQuestionNetwork_events_shape cst st question outcome
  rw [askQuestion_miss_eq cst st question outcome hmiss]
  simp only [eventsOf, List.map_cons] at hrest ⊢
  rw [hrest]
  simp

/-- Claim C6: on the network path, when the (truthy) referrer equals the
refinement query type the POSTed body's referrer object carries the source
and the conversation's current `messageId`; any other truthy referrer
yields a referrer object with the source only. -/
theorem askQuestion_referrer_metadata (cst : Constants) (st : StoreState)
    (question : AskInput) (outcome : FetchOutcome AnswerData)
    (hmiss : question.messageId = ""
        ∨ st.questionCache.lookup question.messageId = none) :
    Event.networkRequest (askRequest cst st question)
        ∈ eventsOf (askQuestion cst st question outcome).2 ∧
    (question.referrer ≠ "" → question.referrer = cst.refinementQueryType →
        (askRequestBody cst st question).referrer
          = some { source := question.referrer
                   messageId := some st.conversation.messageId }) ∧
    (question.referrer ≠ "" → question.referrer ≠ cst.refinementQueryType →
        (askRequestBody cst st question).referrer
          = some { source := question.referrer, messageId := none }) := by
  refine ⟨askQuestion_miss_request_mem cst st question outcome hmiss, ?_, ?_⟩
  · intro h1 h2
    simp only [askRequestBody, if_neg h1, if_pos h2]
  · intro h1 h2
    simp only [askRequestBody, if_neg h1, if_neg h2]

/-- Witness for C6: a refinement referrer and a non-refinement referrer. -/
theorem askQuestion_referrer_metadata_witness :
    (askRequestBody cst0 cachedState askRefInput).referrer
        = some { source := "REFINEMENT", messageId := some "m0" } ∧
    (askRequestBody cst0 cachedState askOtherRefInput).referrer
        = some { source := "TOPQ", messageId := none } ∧
    Event.networkRequest (askRequest cst0 cachedState askRefInput)
        ∈ eventsOf (askQuestion cst0 cachedState askRefInput askSuccessOutcome).2 :=
  have h1 := askQuestion_referrer_metadata cst0 cachedState askRefInput
      askSuccessOutcome (Or.inl rfl)
  have h2 := askQuestion_referrer_metadata cst0 cachedState askOtherRefInput
      askSuccessOutcome (Or.inl rfl)
  ⟨h1.2.1 (by decide) rfl, h2.2.2 (by decide) (by decide), h1.1⟩

/-- Claim C10: on the network path the POSTed body has a `message` field
exactly when the input's `message` is truthy and a `referrer` field exactly
when the input's `referrer` is truthy (empty strings are omitted); present
fields carry the input's values. -/
theorem askQuestion_body_field_presence (cst : Constants) (st : StoreState)
    (question : AskInput) (outcome : FetchOutcome AnswerData)
    (hmiss : question.messageId = ""
        ∨ st.questionCache.lookup question.messageId = none) :
    Event.networkRequest (askRequest cst st question)
        ∈ eventsOf (askQuestion cst st question outcome).2 ∧
    ((askRequestBody cst st question).message.isSome ↔ question.message ≠ "") ∧
    (∀ m, (askRequestBody cst st question).message = some m →
        m = question.message) ∧
    ((askRequestBody cst st question).referrer.isSome ↔ question.referrer ≠ "") ∧
    (∀ r, (askRequestBody cst st question).referrer = some r →
        r.source = question.referrer) := by
  refine ⟨askQuestion_miss_request_mem cst st question outcome hmiss, ?_, ?_, ?_, ?_⟩
  · by_cases h : question.message = "" <;> simp [askRequestBody, h]
  · intro m hm
    by_cases h : question.message = "" <;> simp [askRequestBody, h] at hm
    exact hm.symm
  · by_cases h : question.referrer = "" <;> simp [askRequestBody, h]
  · intro r hr
    by_cases h : question.referrer = "" <;> simp [askRequestBody, h] at hr
    rw [← hr]

/-- Witness for C10: `message` present and truthy, `referrer` absent. -/
theorem askQuestion_body_field_presence_witness :
    (askRequestBody cst0 initialState askMissInput).message.isSome ∧
    ¬ (askRequestBody cst0 initialState askMissInput).referrer.isSome ∧
    Event.networkRequest (askRequest cst0 initialState askMissInput)
        ∈ eventsOf (askQuestion cst0 initialState askMissInput askSuccessOutcome).2 :=
  have h := askQuestion_body_field_presence cst0 initialState askMissInput
      askSuccessOutcome (Or.inl rfl)
  ⟨h.2.1.mpr (by decide),
   fun hcon => (by decide : ¬ (askMissInput.referrer ≠ "")) (h.2.2.2.1.mp hcon),
   h.1⟩

/-- Claim C7: each of the three feedback actions emits its immediate
broadcast strictly before the feedback POST is even issued, hence before
its promise settles, for every store state and every fetch outcome. -/
theorem feedback_broadcast_before_network (cst : Constants) (st : StoreState)
    (outcome : FetchOutcome Unit) :
    (∃ rest, eventsOf (noneOfTheAboveClicked cst st outcome).2
        = Event.noneOfTheAboveClickedBroadcast
          :: Event.networkRequest (feedbackRequest cst st.conversation.conversationId
               st.conversation.messageId "NO_HELPFUL_REFINEMENTS")
          :: Event.networkResolved :: rest) ∧
    (∃ rest, eventsOf (negativeFeedbackGiven cst st outcome).2
        = Event.negativeFeedbackReceivedBroadcast
          :: Event.networkRequest (feedbackRequest cst st.conversation.conversationId
               st.conversation.messageId "UNHELPFUL")
          :: Event.networkResolved :: rest) ∧
    (∃ rest, eventsOf (positiveFeedbackGiven cst st outcome).2
        = Event.positiveFeedbackReceivedBroadcast
          :: Event.networkRequest (feedbackRequest cst st.conversation.conversationId
               st.conversation.messageId "HELPFUL")
          :: Event.networkResolved :: rest) :=
  ⟨⟨_, rfl⟩, ⟨_, rfl⟩, ⟨_, rfl⟩⟩

/-- Claim C8: SET_CURRENT_QUESTION with a falsy or uncached `messageId`
changes nothing and emits nothing; with a cached one it overwrites only
`message`/`messageId`/`responses` from the cache and still emits
nothing. -/
theorem setCurrentQuestion_frame (st : StoreState) (question : QuestionRef)
    (st' : StoreState) (tr : Trace)
    (heq : setCurrentQuestion st question = (st', tr)) :
    ((question.messageId = ""
        ∨ st.questionCache.lookup question.messageId = none) →
        st' = st ∧ tr = []) ∧
    (∀ e, question.messageId ≠ "" →
        st.questionCache.lookup question.messageId = some e →
        st'.conversation.message = e.message ∧
        st'.conversation.messageId = question.messageId ∧
        st'.conversation.responses = e.responses ∧
        st'.conversation.conversationId = st.conversation.conversationId ∧
        st'.conversation.topQuestions = st.conversation.topQuestions ∧
        st'.questionHistory = st.questionHistory ∧
        st'.questionCache = st.questionCache ∧
        st'.selfTopQuestions = st.selfTopQuestions ∧
        tr = []) := by
  constructor
  · intro hmiss
    have hid : setCurrentQuestion st question = (st, []) := by
      rcases hmiss with h | h
      · rcases hcache : st.questionCache.lookup question.messageId with _ | cm
        · simp [setCurrentQuestion, hcache]
        · rw [h] at hcache
          simp [setCurrentQuestion, hcache, h]
      · simp [setCurrentQuestion, h]
    rw [hid] at heq
    rw [Prod.mk.injEq] at heq
    exact ⟨heq.1.symm, heq.2.symm⟩
  · intro e hid hc
    simp [setCurrentQuestion, hc, hid] at heq
    obtain ⟨h1, h2⟩ := heq
    subst h1
    subst h2
    simp

/-- Witness for C8: a concrete unknown id and a concrete cached id. -/
theorem setCurrentQuestion_frame_witness :
    (setMissRun.1 = cachedState ∧ setMissRun.2 = []) ∧
    (setHitRun.1.conversation.message = cachedEntry.message ∧
     setHitRun.1.conversation.messageId = "m1" ∧
     setHitRun.1.conversation.responses = cachedEntry.responses ∧
     setHitRun.1.conversation.conversationId = cachedState.conversation.conversationId ∧
     setHitRun.1.conversation.topQuestions = cachedState.conversation.topQuestions ∧
     setHitRun.1.questionHistory = cachedState.questionHistory ∧
     setHitRun.1.questionCache = cachedState.questionCache ∧
     setHitRun.1.selfTopQuestions = cachedState.selfTopQuestions ∧
     setHitRun.2 = []) :=
  ⟨(setCurrentQuestion_frame cachedState { messageId := "zz" }
        setMissRun.1 setMissRun.2 rfl).1 (Or.inr rfl),
   (setCurrentQuestion_frame cachedState { messageId := "m1" }
        setHitRun.1 setHitRun.2 rfl).2 cachedEntry (by decide) rfl⟩

/-- Claim C5: every handler that consumes a response body validates the
status first — the three content calls accept exactly 200, the four
feedback calls accept `[200, 300)` — and a rejected status puts exactly
the status text into a SERVER_ERROR_BROADCAST, while an accepted one never
produces that broadcast. -/
theorem status_validation_uniform (cst : Constants) (st : StoreState) :
    (∀ (r : HttpResponse StartData),
        Event.serverErrorBroadcast r.statusText
            ∈ eventsOf (conversationStart cst st (FetchOutcome.response r)).2
          ↔ r.status ≠ 200) ∧
    (∀ (question : AskInput) (r : HttpResponse AnswerData),
        (question.messageId = ""
            ∨ st.questionCache.lookup question.messageId = none) →
        (Event.serverErrorBroadcast r.statusText
            ∈ eventsOf (askQuestion cst st question (FetchOutcome.response r)).2
          ↔ r.status ≠ 200)) ∧
    (∀ (r : HttpResponse TopQuestionsData),
        st.conversation.conversationId ≠ "" →
        st.conversation.topQuestions = none →
        (Event.serverErrorBroadcast r.statusText
            ∈ eventsOf (getTopQuestions cst st (FetchOutcome.response r)).2
          ↔ r.status ≠ 200)) ∧
    (∀ (r : HttpResponse Unit),
        Event.serverErrorBroadcast r.statusText
            ∈ eventsOf (noneOfTheAboveClicked cst st (FetchOutcome.response r)).2
          ↔ (r.status < 200 ∨ 300 ≤ r.status)) ∧
    (∀ (r : HttpResponse Unit),
        Event.serverErrorBroadcast r.statusText
            ∈ eventsOf (negativeFeedbackGiven cst st (FetchOutcome.response r)).2
          ↔ (r.status < 200 ∨ 300 ≤ r.status)) ∧
    (∀ (r : HttpResponse Unit),
        Event.serverErrorBroadcast r.statusText
            ∈ eventsOf (positiveFeedbackGiven cst st (FetchOutcome.response r)).2
          ↔ (r.status < 200 ∨ 300 ≤ r.status)) ∧
    (∀ (messageId : String) (r : HttpResponse Unit),
        Event.serverErrorBroadcast r.statusText
            ∈ eventsOf (forumButtonPressed cst st messageId (FetchOutcome.response r)).2
          ↔ (r.status < 200 ∨ 300 ≤ r.status)) := by
  refine ⟨?_, ?_, ?_, ?_, ?_, ?_, ?_⟩
  · intro r
    by_cases h : r.status = 200 <;> simp [conversationStart, h, eventsOf]
  · intro question r hmiss
    rw [askQuestion_miss_eq cst st question _ hmiss]
    by_cases h : r.status = 200 <;>
      simp [askQuestionNetwork, analyzeStatus, h, eventsOf]
  · intro r h1 h2
    by_cases h : r.status = 200 <;>
      simp [getTopQuestions, analyzeStatus, h1, h2, h, eventsOf]
  · intro r
    by_cases h : r.status < 200 ∨ 300 ≤ r.status <;>
      simp [noneOfTheAboveClicked, feedbackResolution, h, eventsOf]
  · intro r
    by_cases h : r.status < 200 ∨ 300 ≤ r.status <;>
      simp [negativeFeedbackGiven, feedbackResolution, h, eventsOf]
  · intro r
    by_cases h : r.status < 200 ∨ 300 ≤ r.status <;>
      simp [positiveFeedbackGiven, feedbackResolution, h, eventsOf]
  · intro messageId r
    by_cases h : r.status < 200 ∨ 300 ≤ r.status <;>
      simp [forumButtonPressed, feedbackResolution, h, eventsOf]

/-- Witness for C5 at concrete rejected statuses for a content call, a
feedback call, the ask call and the topQuestions call. -/
theorem status_validation_uniform_witness :
    (Event.serverErrorBroadcast "Internal Server Error"
        ∈ eventsOf (conversationStart cst0 initialState (FetchOutcome.response resp500)).2
      ↔ (500 : Nat) ≠ 200) ∧
    (Event.serverErrorBroadcast "ISE"
        ∈ eventsOf (askQuestion cst0 initialState askMissInput
            (FetchOutcome.response respAnswer500)).2
      ↔ (500 : Nat) ≠ 200) ∧
    (Event.serverErrorBroadcast "Bad Gateway"
        ∈ eventsOf (getTopQuestions cst0 topQuestionsUnsetState
            (FetchOutcome.response respTq502)).2
      ↔ (502 : Nat) ≠ 200) ∧
    (Event.serverErrorBroadcast "Forbidden"
        ∈ eventsOf (noneOfTheAboveClicked cst0 cachedState
            (FetchOutcome.response respFb403)).2
      ↔ ((403 : Nat) < 200 ∨ 300 ≤ (403 : Nat))) :=
  have h1 := status_validation_uniform cst0 initialState
  have h2 := status_validation_uniform cst0 topQuestionsUnsetState
  have h3 := status_validation_uniform cst0 cachedState
  ⟨h1.1 resp500, h1.2.1 askMissInput respAnswer500 (Or.inl rfl),
   h2.2.2.1 respTq502 (by decide) rfl, h3.2.2.2.1 respFb403⟩

/-- Witness for C4 at a concrete non-200 response. -/
theorem conversationStart_status_behaviour_witness :
    conversationStartRun.1 = initialState ∧
    (eventsOf conversationStartRun.2).filter isServerErrorEvent
      = [Event.serverErrorBroadcast "Internal Server Error"] :=
  (conversationStart_status_behaviour cst0 initialState resp500
      conversationStartRun.1 conversationStartRun.2 rfl).1 (by decide)
